import Mathlib

/-!
Verification of the multi-tenant reverse proxy (`server.js`, evolved variant).

The embedding models the request pipeline of the Express application:
cookie parsing, the `GET /` landing-page route, one explicitly mounted
proxy per registered application (which sets the `x-proxied-app` cookie and
rewrites the path), the dynamic fallback middleware (homepage carve-out,
explicit-path re-check, referer lookup, cookie lookup), the 404 handler,
and the shared `onProxyRes` redirect-`Location` rewriter and `onError`
handler of the proxy options.

Strings are compared through their underlying character lists, matching
JavaScript `String.prototype.startsWith` / `includes` semantics.  Header
and cookie values model JavaScript truthiness by letting `""` stand for an
absent value: every access in the source is guarded by a truthiness check,
so absent and empty are observationally identical there.
-/

namespace ProxyServer

/-- JavaScript `s.startsWith(p)`. -/
def jsStartsWith (s p : String) : Bool := p.data.isPrefixOf s.data

/-- JavaScript `s.includes(sub)`: `sub` occurs contiguously somewhere in `s`. -/
def jsIncludes (s sub : String) : Bool :=
  (List.range (s.data.length + 1)).any fun i => sub.data.isPrefixOf (s.data.drop i)

/-- One entry of the `proxiedApps` registry: `{ name, path, target }`. -/
structure AppConfig where
  name : String
  path : String
  target : String
deriving DecidableEq

/-- The `Movie Hub` registry entry. -/
def movieHubApp : AppConfig :=
  ⟨"Movie Hub", "/movie-hub", "http://34.134.191.116:4002"⟩

/-- The `Todo List` registry entry. -/
def todoListApp : AppConfig :=
  ⟨"Todo List", "/todo-list", "http://34.134.191.116:3001"⟩

/-- The `YouTube AI Quizzer` registry entry. -/
def ytQuizApp : AppConfig :=
  ⟨"YouTube AI Quizzer", "/youtube-ai-quizzer", "http://34.134.191.116:5001"⟩

/-- The `AI MCQ Generator` registry entry. -/
def mcqApp : AppConfig :=
  ⟨"AI MCQ Generator", "/mcq", "http://34.134.191.116:5002"⟩

/-- The `Bookmark Manager` registry entry. -/
def bookmarkApp : AppConfig :=
  ⟨"Bookmark Manager", "/bookmark-manager", "http://34.134.191.116:5003"⟩

/-- The `proxiedApps` registry, in source order. -/
def proxiedApps : List AppConfig :=
  [movieHubApp, todoListApp, ytQuizApp, mcqApp, bookmarkApp]

/-- An inbound request.  `url` is `req.originalUrl` (equal to `req.path`
here: query strings are not modelled).  `referer` is the `Referer` header
and `cookie` the value of `req.cookies['x-proxied-app']`; `""` encodes
"absent" (JavaScript falsy), which the source never distinguishes from an
empty value because every access is truthiness-guarded. -/
structure Request where
  method : String
  url : String
  referer : String
  cookie : String
deriving DecidableEq

/-- Express mount matching for `app.use(p, ...)`: the mount handles a
request url exactly when the url equals the mount path or continues it at
a path-segment boundary (`'/'`). -/
def mountMatches (p url : String) : Bool :=
  url == p || jsStartsWith url (p ++ "/")

/-- The explicitly mounted proxy that handles the request, if any: Express
tries the per-application mounts in registration order. -/
def explicitMatch (apps : List AppConfig) (req : Request) : Option AppConfig :=
  apps.find? fun a => mountMatches a.path req.url

/-- The `pathRewrite: { ['^' + appConfig.path]: '/' }` rule of the explicit
proxies.  `http-proxy-middleware` restores `req.url` to `req.originalUrl`
before rewriting, so the rule applies to the full inbound url: an anchored
regex match of the mount path is replaced by `'/'`. -/
def rewriteExplicit (p url : String) : String :=
  if jsStartsWith url p then "/" ++ String.mk (url.data.drop p.data.length)
  else url

/-- Line 187: `proxiedApps.find(appConfig => req.headers.referer.includes(appConfig.path))`. -/
def findByReferer (apps : List AppConfig) (ref : String) : Option AppConfig :=
  apps.find? fun a => jsIncludes ref a.path

/-- Line 191: `proxiedApps.find(appConfig => appConfig.path === appPathFromCookie)`. -/
def findByCookie (apps : List AppConfig) (c : String) : Option AppConfig :=
  apps.find? fun a => a.path == c

/-- Line 182: `proxiedApps.some(appConfig => req.originalUrl.startsWith(appConfig.path))` —
the fallback middleware's explicit-path re-check, a plain `startsWith`. -/
def isExplicitProxiedPath (apps : List AppConfig) (url : String) : Bool :=
  apps.any fun a => jsStartsWith url a.path

/-- Lines 185–193: the fallback middleware's tenant resolution.  A truthy
referer is searched first; if that found nothing (or no referer is
present), a truthy affinity cookie is looked up exactly. -/
def resolveFallback (apps : List AppConfig) (req : Request) : Option AppConfig :=
  let byRef : Option AppConfig :=
    if req.referer == "" then none else findByReferer apps req.referer
  match byRef with
  | some a => some a
  | none => if req.cookie == "" then none else findByCookie apps req.cookie

/-- A cookie as set by `res.cookie(name, value, options)`. -/
structure Cookie where
  name : String
  value : String
  maxAgeMs : Nat
  httpOnly : Bool
  cookiePath : String
deriving DecidableEq

/-- Line 165: `res.cookie('x-proxied-app', appConfig.path, { maxAge: 3600000, httpOnly: true, path: '/' })`. -/
def affinityCookie (p : String) : Cookie :=
  ⟨"x-proxied-app", p, 3600000, true, "/"⟩

/-- Where the pipeline sends the request. -/
inductive Decision where
  | landing
  | explicitForward (app : AppConfig) (forwardedUrl : String)
  | fallbackForward (app : AppConfig) (forwardedUrl : String)
  | notFound
deriving DecidableEq

/-- The routing decision together with the cookies set along the way. -/
structure Outcome where
  decision : Decision
  cookies : List Cookie
deriving DecidableEq

/-- The middleware pipeline, in registration order: `app.get('/')`, the
explicit per-application mounts (whose wrapper sets the affinity cookie
before invoking the proxy), the dynamic fallback (homepage carve-out,
explicit-path re-check with `next()`, referer/cookie resolution with an
identity `pathRewrite`), and the final 404 handler. -/
def process (apps : List AppConfig) (req : Request) : Outcome :=
  if req.method == "GET" && req.url == "/" then ⟨.landing, []⟩
  else
    match explicitMatch apps req with
    | some a =>
        ⟨.explicitForward a (rewriteExplicit a.path req.url), [affinityCookie a.path]⟩
    | none =>
        if req.method == "GET" && req.url == "/" then ⟨.notFound, []⟩
        else if isExplicitProxiedPath apps req.url then ⟨.notFound, []⟩
        else
          match resolveFallback apps req with
          | some a => ⟨.fallbackForward a req.url, []⟩
          | none => ⟨.notFound, []⟩

/-- Whether the fallback middleware's referer/cookie resolution logic (the
affinity resolver) is ever evaluated for the request: the request must get
past the landing-page route, the explicit mounts, the fallback's homepage
carve-out and its explicit-path re-check. -/
def reachesResolver (apps : List AppConfig) (req : Request) : Bool :=
  !(req.method == "GET" && req.url == "/")
    && (explicitMatch apps req).isNone
    && !(isExplicitProxiedPath apps req.url)

/-- Lines 132–142 of `onProxyRes`: derive the prefix used to rewrite a
redirect `Location`.  A plain `startsWith` match on the original url wins;
otherwise a truthy referer is searched (and, the chain being `else if`, a
fruitless referer search blocks the cookie branch); otherwise a truthy
cookie is looked up exactly. -/
def deriveAppPfx (apps : List AppConfig) (req : Request) : Option String :=
  match apps.find? (fun a => jsStartsWith req.url a.path) with
  | some a => some a.path
  | none =>
      if req.referer == "" then
        if req.cookie == "" then none
        else (findByCookie apps req.cookie).map fun a => a.path
      else (findByReferer apps req.referer).map fun a => a.path

/-- Lines 129–149 of `onProxyRes`: if the response status is 300–399 and
the `Location` header is root-relative, prepend the derived prefix (when
one was derived) unconditionally. -/
def rewriteLocation (apps : List AppConfig) (req : Request) (status : Nat)
    (location : String) : String :=
  if 300 ≤ status ∧ status < 400 then
    if jsStartsWith location "/" then
      match deriveAppPfx apps req with
      | some p => p ++ location
      | none => location
    else location
  else location

/-- What the backend did for a forwarded request: answered with a status
and an optional `Location` header (`""` = absent), or was unreachable. -/
inductive BackendResult where
  | ok (status : Nat) (location : String)
  | unreachable
deriving DecidableEq

/-- The response the client receives. -/
structure HttpResponse where
  status : Nat
  body : String
  cookies : List Cookie
  location : String
deriving DecidableEq

/-- Assemble the client-visible response: the landing page, the 404
handler's text, the `onError` handler's `500 'Proxy Error'` when a
forwarded request's backend is unreachable, or the backend response with
its `Location` header passed through the redirect rewriter. -/
def respond (apps : List AppConfig) (req : Request) (backend : BackendResult) :
    HttpResponse :=
  match process apps req with
  | ⟨Decision.landing, cs⟩ => ⟨200, "index.html", cs, ""⟩
  | ⟨Decision.notFound, cs⟩ =>
      ⟨404,
        "Not Found: This path does not exist on the proxy or could not be routed to an application.",
        cs, ""⟩
  | ⟨Decision.explicitForward _ _, cs⟩ =>
      match backend with
      | .unreachable => ⟨500, "Proxy Error", cs, ""⟩
      | .ok st loc => ⟨st, "", cs, rewriteLocation apps req st loc⟩
  | ⟨Decision.fallbackForward _ _, cs⟩ =>
      match backend with
      | .unreachable => ⟨500, "Proxy Error", cs, ""⟩
      | .ok st loc => ⟨st, "", cs, rewriteLocation apps req st loc⟩

/-! ## Helper lemmas -/

/-- A mount match extends to slash-terminated character lists: if the mount
`p` handles url `u`, then `p ++ "/"` is a prefix of `u ++ "/"`. -/
theorem mount_slash {p u : String} (h : mountMatches p u = true) :
    (p.data ++ ['/']) <+: (u.data ++ ['/']) := by
  unfold mountMatches at h
  rcases Bool.or_eq_true_iff.mp h with h | h
  · have he : u = p := beq_iff_eq.mp h
    subst he
    exact List.prefix_refl _
  · unfold jsStartsWith at h
    have h' : (p ++ "/").data <+: u.data := List.isPrefixOf_iff_prefix.mp h
    rw [String.data_append] at h'
    exact h'.trans (List.prefix_append u.data ['/'])

/-- The shipped registry's prefixes are pairwise non-nesting once
slash-terminated. -/
theorem registrySlashFree :
    ∀ a ∈ proxiedApps, ∀ b ∈ proxiedApps,
      (a.path.data ++ ['/']) <+: (b.path.data ++ ['/']) → a = b := by decide

/-- At most one registered mount can handle a given url. -/
theorem mount_unique {u : String} {a b : AppConfig}
    (ha : a ∈ proxiedApps) (hb : b ∈ proxiedApps)
    (hma : mountMatches a.path u = true) (hmb : mountMatches b.path u = true) :
    a = b := by
  have h1 := mount_slash hma
  have h2 := mount_slash hmb
  rcases List.prefix_or_prefix_of_prefix h1 h2 with h | h
  · exact registrySlashFree a ha b hb h
  · exact (registrySlashFree b hb a ha h).symm

/-- No registered mount handles the bare root url. -/
theorem noMountOnRoot : ∀ a ∈ proxiedApps, mountMatches a.path "/" = false := by decide

/-- When an explicit mount matches, the pipeline forwards through it with
the rewritten path and sets the affinity cookie — whatever else is in the
request. -/
theorem process_explicit {req : Request} {a : AppConfig}
    (h : explicitMatch proxiedApps req = some a) :
    process proxiedApps req =
      ⟨.explicitForward a (rewriteExplicit a.path req.url), [affinityCookie a.path]⟩ := by
  have hmem := List.mem_of_find?_eq_some h
  have hpred := List.find?_some h
  have hurl : (req.url == "/") = false := by
    by_cases hu : req.url = "/"
    · rw [hu] at hpred
      rw [noMountOnRoot a hmem] at hpred
      exact absurd hpred (by decide)
    · exact beq_eq_false_iff_ne.mpr hu
  have hc : (req.method == "GET" && req.url == "/") = false := by
    rw [hurl, Bool.and_false]
  unfold process
  rw [hc, h]
  rfl

/-! ## Claims -/

/-- Claim C8: a GET request to "/" is always served by the landing-page
handler and never reaches the affinity resolver, whatever referer and
affinity cookie accompany it. -/
theorem C8_homepage_never_reaches_resolver (ref ck : String) :
    process proxiedApps ⟨"GET", "/", ref, ck⟩ = ⟨.landing, []⟩ ∧
      reachesResolver proxiedApps ⟨"GET", "/", ref, ck⟩ = false :=
  ⟨rfl, rfl⟩

/-- Claim C7: every request whose path explicitly matches a tenant's mount
gets the affinity cookie `x-proxied-app` set to exactly that tenant's
registered prefix, with `httpOnly`, cookie path "/", and a max-age of
3600000 ms, i.e. 3600 seconds. -/
theorem C7_explicit_match_sets_affinity_cookie (req : Request) (a : AppConfig)
    (h : explicitMatch proxiedApps req = some a) :
    (process proxiedApps req).cookies =
        [⟨"x-proxied-app", a.path, 3600000, true, "/"⟩] ∧
      3600000 = 3600 * 1000 := by
  rw [process_explicit h]
  exact ⟨rfl, rfl⟩

/-- Witness for C7 at the concrete request `GET /mcq/quiz`. -/
theorem C7_witness :
    (process proxiedApps ⟨"GET", "/mcq/quiz", "", ""⟩).cookies =
        [⟨"x-proxied-app", mcqApp.path, 3600000, true, "/"⟩] ∧
      3600000 = 3600 * 1000 :=
  C7_explicit_match_sets_affinity_cookie ⟨"GET", "/mcq/quiz", "", ""⟩ mcqApp (by decide)

/-- Claim C10: on an explicit prefix match the affinity cookie is written
before forwarding begins, so even when the backend is unreachable the
client's `500 Proxy Error` response still carries the refreshed cookie. -/
theorem C10_cookie_survives_backend_error (req : Request) (a : AppConfig)
    (h : explicitMatch proxiedApps req = some a) :
    respond proxiedApps req .unreachable =
      ⟨500, "Proxy Error", [affinityCookie a.path], ""⟩ := by
  unfold respond
  rw [process_explicit h]

/-- Witness for C10 at the concrete request `GET /todo-list/items`. -/
theorem C10_witness :
    respond proxiedApps ⟨"GET", "/todo-list/items", "", ""⟩ .unreachable =
      ⟨500, "Proxy Error", [affinityCookie todoListApp.path], ""⟩ :=
  C10_cookie_survives_backend_error ⟨"GET", "/todo-list/items", "", ""⟩ todoListApp
    (by decide)

/-- Claim C6 (code bug): the explicit proxies' pathRewrite replaces the
matched prefix by "/" on the full original url, so `/mcq/x` is forwarded
to the backend as `//x` — a double slash — not as `/x` as the rewrite
rule's own comment and the spec state; only the bare prefix `/mcq` is
rewritten to `/`. -/
theorem C6_pathRewrite_double_slash :
    process proxiedApps ⟨"GET", "/mcq/x", "", ""⟩ =
        ⟨.explicitForward mcqApp "//x", [affinityCookie "/mcq"]⟩ ∧
      rewriteExplicit "/mcq" "/mcq/x" = "//x" ∧
      rewriteExplicit "/mcq" "/mcq" = "/" ∧
      "//x" ≠ "/x" := by decide

/-- Counterexample to claim C2: a request routed explicitly to `/mcq`
whose backend answers `302 Location: /mcq/dashboard` — the Location
already starts with the owning tenant's prefix, yet the rewriter prepends
the prefix again, double-prefixing the Location. -/
theorem C2_counterexample :
    jsStartsWith "/mcq/dashboard" "/mcq" = true ∧
      rewriteLocation proxiedApps ⟨"GET", "/mcq/login", "", ""⟩ 302 "/mcq/dashboard" =
        "/mcq/mcq/dashboard" ∧
      "/mcq/mcq/dashboard" ≠ "/mcq/dashboard" := by decide

/-- Claim C2 as amended: for every response with a redirect status
(300–399) and a root-relative Location for which the rewriter derives an
owning prefix, that prefix is prepended unconditionally — also when the
Location already starts with it.  The rewrite is not idempotent and can
double-prefix. -/
theorem C2_amended_unconditional_prepend (req : Request) (status : Nat)
    (loc p : String) (h3 : 300 ≤ status) (h4 : status < 400)
    (hroot : jsStartsWith loc "/" = true)
    (hp : deriveAppPfx proxiedApps req = some p) :
    rewriteLocation proxiedApps req status loc = p ++ loc := by
  unfold rewriteLocation
  rw [if_pos ⟨h3, h4⟩, hroot, hp]
  rfl

/-- Witness for C2's amended theorem: `302 Location: /foo` from a request
to `/mcq/login` is rewritten to `/mcq/foo`. -/
theorem C2_witness :
    rewriteLocation proxiedApps ⟨"GET", "/mcq/login", "", ""⟩ 302 "/foo" =
      "/mcq" ++ "/foo" :=
  C2_amended_unconditional_prepend ⟨"GET", "/mcq/login", "", ""⟩ 302 "/foo" "/mcq"
    (by decide) (by decide) (by decide) (by decide)

/-- Counterexample to claim C3: the prefix-less request `POST /submit`
carrying affinity cookie `/mcq` is resolved and forwarded with its path
unmodified, but the outcome sets no cookie at all — the affinity token is
not refreshed. -/
theorem C3_counterexample :
    process proxiedApps ⟨"POST", "/submit", "", "/mcq"⟩ =
        ⟨.fallbackForward mcqApp "/submit", []⟩ ∧
      affinityCookie "/mcq" ∉
        (process proxiedApps ⟨"POST", "/submit", "", "/mcq"⟩).cookies := by decide

/-- Claim C3 as amended: every prefix-less request that the affinity
resolver resolves to a tenant is forwarded to that tenant's backend with
the original path completely unmodified, but the response does NOT
refresh the affinity token: no cookie is set on the fallback path (only
explicit-prefix requests refresh it). -/
theorem C3_amended_no_token_refresh (req : Request) (a : AppConfig)
    (hr : reachesResolver proxiedApps req = true)
    (hres : resolveFallback proxiedApps req = some a) :
    process proxiedApps req = ⟨.fallbackForward a req.url, []⟩ := by
  unfold reachesResolver at hr
  rcases Bool.and_eq_true_iff.mp hr with ⟨hr12, hr3⟩
  rcases Bool.and_eq_true_iff.mp hr12 with ⟨hr1, hr2⟩
  have h1 : (req.method == "GET" && req.url == "/") = false := by
    rw [Bool.not_eq_true'] at hr1
    exact hr1
  have h2 : explicitMatch proxiedApps req = none :=
    Option.isNone_iff_eq_none.mp hr2
  have h3 : isExplicitProxiedPath proxiedApps req.url = false := by
    rw [Bool.not_eq_true'] at hr3
    exact hr3
  unfold process
  rw [h1, h2, h3, hres]
  rfl

/-- Witness for C3's amended theorem at the concrete request
`POST /api/data` with affinity cookie `/todo-list`. -/
theorem C3_witness :
    process proxiedApps ⟨"POST", "/api/data", "", "/todo-list"⟩ =
      ⟨.fallbackForward todoListApp "/api/data", []⟩ :=
  C3_amended_no_token_refresh ⟨"POST", "/api/data", "", "/todo-list"⟩ todoListApp
    (by decide) (by decide)

/-- Counterexample to claim C4: `POST /submit` with a Referer that
contains no registered prefix and affinity cookie `/mcq` is routed to the
mcq tenant by the cookie, yet the rewriter leaves the backend's
`302 Location: /done` unrewritten instead of producing `/mcq/done`. -/
theorem C4_counterexample :
    process proxiedApps ⟨"POST", "/submit", "https://evil.example/page", "/mcq"⟩ =
        ⟨.fallbackForward mcqApp "/submit", []⟩ ∧
      rewriteLocation proxiedApps ⟨"POST", "/submit", "https://evil.example/page", "/mcq"⟩
          302 "/done" = "/done" ∧
      ("/done" : String) ≠ "/mcq" ++ "/done" := by decide

/-- Claim C4 as amended: the redirect rewriter re-derives the owning
tenant independently of the routing decision (path `startsWith`, else
referer, else cookie, in an `else if` chain); consequently, when a Referer
header is present but contains no registered prefix and the original url
starts with no registered prefix, the affinity cookie is never consulted
and the Location is left unrewritten — even when the fallback routed the
request by that very cookie. -/
theorem C4_amended_referer_blocks_cookie (req : Request) (status : Nat)
    (loc : String) (href : req.referer ≠ "")
    (hpath : proxiedApps.find? (fun a => jsStartsWith req.url a.path) = none)
    (hfr : findByReferer proxiedApps req.referer = none) :
    rewriteLocation proxiedApps req status loc = loc := by
  have h2 : (req.referer == "") = false := beq_eq_false_iff_ne.mpr href
  have hd : deriveAppPfx proxiedApps req = none := by
    unfold deriveAppPfx
    rw [hpath, h2, hfr]
    rfl
  unfold rewriteLocation
  rw [hd]
  simp

/-- Witness for C4's amended theorem at `POST /submit` with an unmatched
Referer and affinity cookie `/mcq`. -/
theorem C4_witness :
    rewriteLocation proxiedApps ⟨"POST", "/submit", "https://evil.example/", "/mcq"⟩
        302 "/go" = "/go" :=
  C4_amended_referer_blocks_cookie ⟨"POST", "/submit", "https://evil.example/", "/mcq"⟩
    302 "/go" (by decide) (by decide) (by decide)

/-- A hypothetical registry in which two descriptors share the prefix
`/a` — the situation claim C5 says must abort startup. -/
def dupApps : List AppConfig :=
  [⟨"A", "/a", "http://a1"⟩, ⟨"B", "/a", "http://a2"⟩]

/-- Counterexample to claim C5: the registration loop performs no
collision check, so with a duplicated registry the pipeline still serves
requests — `GET /a/x` is routed to the first-registered descriptor —
instead of the process refusing to start. -/
theorem C5_counterexample :
    dupApps.map (fun a => a.path) = ["/a", "/a"] ∧
      process dupApps ⟨"GET", "/a/x", "", ""⟩ =
        ⟨.explicitForward ⟨"A", "/a", "http://a1"⟩ "//x", [affinityCookie "/a"]⟩ := by
  decide

/-- Claim C5 as amended: startup performs no duplicate-prefix validation.
A registry with two descriptors sharing a prefix still serves every
request under that prefix, the first-registered descriptor shadowing the
second; the shipped registry merely happens to have pairwise-distinct
prefixes. -/
theorem C5_amended_no_collision_check :
    (proxiedApps.map fun a => a.path).Nodup ∧
      ∀ s : String, explicitMatch dupApps ⟨"GET", "/a/" ++ s, "", ""⟩ =
        some ⟨"A", "/a", "http://a1"⟩ := by
  refine ⟨by decide, fun s => ?_⟩
  unfold explicitMatch dupApps
  apply List.find?_cons_of_pos
  show mountMatches "/a" ("/a/" ++ s) = true
  unfold mountMatches jsStartsWith
  apply Bool.or_eq_true_iff.mpr
  right
  rw [List.isPrefixOf_iff_prefix, String.data_append, String.data_append]
  exact List.prefix_append _ _

/-- Counterexample to claim C9: `GET /` with no referer, no explicit
match, and an affinity cookie naming no registered tenant is served by
the landing page, not by the not-found response the claim promises for
every such request. -/
theorem C9_counterexample :
    explicitMatch proxiedApps ⟨"GET", "/", "", "bogus"⟩ = none ∧
      findByCookie proxiedApps "bogus" = none ∧
      process proxiedApps ⟨"GET", "/", "", "bogus"⟩ = ⟨.landing, []⟩ ∧
      (process proxiedApps ⟨"GET", "/", "", "bogus"⟩).decision ≠ Decision.notFound := by
  decide

/-- Claim C9 as amended: an affinity token whose value equals no
registered tenant's prefix is treated exactly as if absent — the pipeline
outcome is identical to that of the cookieless request — and, except for
the `GET /` homepage request (which the landing-page handler serves), a
request with no explicit prefix match (not even by `startsWith`), no
referer containing a registered prefix and such a token is forwarded
nowhere and receives the not-found response; never a hard failure. -/
theorem C9_amended_invalid_token_as_absent (req : Request)
    (hck : findByCookie proxiedApps req.cookie = none) :
    process proxiedApps req =
        process proxiedApps ⟨req.method, req.url, req.referer, ""⟩ ∧
      (¬(req.method = "GET" ∧ req.url = "/") →
        explicitMatch proxiedApps req = none →
        isExplicitProxiedPath proxiedApps req.url = false →
        (req.referer ≠ "" → findByReferer proxiedApps req.referer = none) →
        process proxiedApps req = ⟨.notFound, []⟩) := by
  obtain ⟨m, u, r, c⟩ := req
  simp only at hck
  constructor
  · have hres : resolveFallback proxiedApps ⟨m, u, r, c⟩ =
        resolveFallback proxiedApps ⟨m, u, r, ""⟩ := by
      unfold resolveFallback
      by_cases hc : c = ""
      · rw [hc]
      · simp only
        rw [beq_eq_false_iff_ne.mpr hc, hck]
        rfl
    unfold process
    simp only
    rw [hres]
    rfl
  · intro hnot hexm hexp href
    have hgu : ((m == "GET") && (u == "/")) = false := by
      by_cases hm : m = "GET"
      · by_cases hu : u = "/"
        · exact absurd ⟨hm, hu⟩ hnot
        · rw [beq_eq_false_iff_ne.mpr hu, Bool.and_false]
      · rw [beq_eq_false_iff_ne.mpr hm, Bool.false_and]
    have hrf : resolveFallback proxiedApps ⟨m, u, r, c⟩ = none := by
      unfold resolveFallback
      simp only
      by_cases hr : r = ""
      · rw [hr]
        by_cases hc : c = ""
        · rw [hc]
          rfl
        · rw [beq_eq_false_iff_ne.mpr hc, hck]
          rfl
      · rw [beq_eq_false_iff_ne.mpr hr, href hr]
        by_cases hc : c = ""
        · rw [hc]
          rfl
        · rw [beq_eq_false_iff_ne.mpr hc, hck]
          rfl
    unfold process
    simp only at hexm hexp
    rw [hgu, hexm, hexp, hrf]
    rfl

/-- Witness for C9's amended theorem at `POST /nowhere` with the invalid
affinity cookie `bogus`. -/
theorem C9_witness :
    process proxiedApps ⟨"POST", "/nowhere", "", "bogus"⟩ = ⟨.notFound, []⟩ :=
  (C9_amended_invalid_token_as_absent ⟨"POST", "/nowhere", "", "bogus"⟩ (by decide)).2
    (by decide) (by decide) (by decide) (fun h => absurd rfl h)

/-- A mount whose slash-terminated path neither is a prefix of
"/movie-hub-extra" nor has "/movie-hub-extra" as a prefix handles no url
continuing "/movie-hub-extra". -/
theorem mhx_no_mount (p : String)
    (hne : ¬ ("/movie-hub-extra" : String).data <+: (p.data ++ ['/']))
    (hpfx : ¬ (p.data ++ ['/']) <+: ("/movie-hub-extra" : String).data)
    (s : String) :
    mountMatches p ("/movie-hub-extra" ++ s) = false := by
  unfold mountMatches jsStartsWith
  apply Bool.or_eq_false_iff.mpr
  constructor
  · apply beq_eq_false_iff_ne.mpr
    intro he
    apply hne
    have hd : p.data = ("/movie-hub-extra" : String).data ++ s.data := by
      rw [← he, String.data_append]
    rw [hd]
    exact (List.prefix_append _ _).trans (List.prefix_append _ _)
  · apply Bool.eq_false_iff.mpr
    intro hT
    rw [List.isPrefixOf_iff_prefix, String.data_append, String.data_append] at hT
    have hmhx : ("/movie-hub-extra" : String).data <+:
        ("/movie-hub-extra" : String).data ++ s.data := List.prefix_append _ _
    rcases List.prefix_or_prefix_of_prefix hT hmhx with h | h
    · exact hpfx h
    · exact hne h

/-- Plain `startsWith` — as used by the fallback's explicit-path re-check
and the redirect rewriter's path match — matches "/movie-hub" against
every url continuing "/movie-hub-extra". -/
theorem mhx_starts (s : String) :
    jsStartsWith ("/movie-hub-extra" ++ s) "/movie-hub" = true := by
  unfold jsStartsWith
  rw [List.isPrefixOf_iff_prefix, String.data_append]
  have h1 : ("/movie-hub" : String).data <+: ("/movie-hub-extra" : String).data := by
    decide
  exact h1.trans (List.prefix_append _ _)

/-- The redirect rewriter's path lookup resolves every url continuing
"/movie-hub-extra" to the "/movie-hub" tenant. -/
theorem mhx_find (s : String) :
    proxiedApps.find? (fun a => jsStartsWith ("/movie-hub-extra" ++ s) a.path) =
      some movieHubApp := by
  unfold proxiedApps
  apply List.find?_cons_of_pos
  exact mhx_starts s

/-- The explicit router handles no url continuing "/movie-hub-extra". -/
theorem mhx_explicit_none (m r c s : String) :
    explicitMatch proxiedApps ⟨m, "/movie-hub-extra" ++ s, r, c⟩ = none := by
  unfold explicitMatch
  apply List.find?_eq_none.mpr
  intro b hb hT
  have hT' : mountMatches b.path ("/movie-hub-extra" ++ s) = true := hT
  have hb5 : b = movieHubApp ∨ b = todoListApp ∨ b = ytQuizApp ∨ b = mcqApp ∨
      b = bookmarkApp := by
    simpa [proxiedApps] using hb
  have hf : mountMatches b.path ("/movie-hub-extra" ++ s) = false := by
    rcases hb5 with rfl | rfl | rfl | rfl | rfl
    · exact mhx_no_mount _ (by decide) (by decide) s
    · exact mhx_no_mount _ (by decide) (by decide) s
    · exact mhx_no_mount _ (by decide) (by decide) s
    · exact mhx_no_mount _ (by decide) (by decide) s
    · exact mhx_no_mount _ (by decide) (by decide) s
  rw [hf] at hT'
  exact absurd hT' (by decide)

/-- Counterexample to claim C1: the path `/movie-hub-extra/x` IS treated
as belonging to the `/movie-hub` tenant by the fallback's explicit-path
re-check and by the redirect rewriter's path match (both use plain
`startsWith`): the re-check reports it explicit, and the rewriter derives
prefix "/movie-hub" and rewrites a redirect with it. -/
theorem C1_counterexample :
    isExplicitProxiedPath proxiedApps "/movie-hub-extra/x" = true ∧
      deriveAppPfx proxiedApps ⟨"GET", "/movie-hub-extra/x", "", ""⟩ =
        some "/movie-hub" ∧
      rewriteLocation proxiedApps ⟨"GET", "/movie-hub-extra/x", "", ""⟩ 302
          "/poster.jpg" = "/movie-hub/poster.jpg" := by decide

/-- Claim C1 as amended: the explicit router matches at path-segment
boundaries, and — the registry prefixes being pairwise non-nesting — the
tenant it selects is the unique (hence longest) boundary match, no tenant
being selected when no boundary match exists; in particular it never
routes a url continuing "/movie-hub-extra" to any tenant.  The fallback's
explicit-path re-check and the redirect rewriter's path match, however,
use plain `startsWith`, so they DO treat every url continuing
"/movie-hub-extra" as belonging to the "/movie-hub" tenant. -/
theorem C1_amended_boundary_vs_startsWith (req : Request) :
    (∀ a, explicitMatch proxiedApps req = some a →
        mountMatches a.path req.url = true ∧
          ∀ b ∈ proxiedApps, mountMatches b.path req.url = true → b = a) ∧
      (explicitMatch proxiedApps req = none →
        ∀ b ∈ proxiedApps, mountMatches b.path req.url = false) ∧
      (∀ s : String,
        explicitMatch proxiedApps
            ⟨req.method, "/movie-hub-extra" ++ s, req.referer, req.cookie⟩ = none ∧
          isExplicitProxiedPath proxiedApps ("/movie-hub-extra" ++ s) = true ∧
          proxiedApps.find? (fun a => jsStartsWith ("/movie-hub-extra" ++ s) a.path) =
            some movieHubApp) := by
  refine ⟨?_, ?_, ?_⟩
  · intro a h
    have hmem := List.mem_of_find?_eq_some h
    have hpred := List.find?_some h
    exact ⟨hpred, fun b hb hmb => mount_unique hb hmem hmb hpred⟩
  · intro h b hb
    have h2 := List.find?_eq_none.mp h b hb
    exact Bool.of_not_eq_true h2
  · intro s
    refine ⟨mhx_explicit_none req.method req.referer req.cookie s, ?_, mhx_find s⟩
    unfold isExplicitProxiedPath
    apply List.any_eq_true.mpr
    exact ⟨movieHubApp, by decide, mhx_starts s⟩

/-- Witness for C1's amended theorem at the request `GET /mcq/quiz` and
the suffix "/x". -/
theorem C1_witness :
    mountMatches mcqApp.path "/mcq/quiz" = true ∧
      isExplicitProxiedPath proxiedApps ("/movie-hub-extra" ++ "/x") = true :=
  ⟨((C1_amended_boundary_vs_startsWith ⟨"GET", "/mcq/quiz", "", ""⟩).1 mcqApp
      (by decide)).1,
   ((C1_amended_boundary_vs_startsWith ⟨"GET", "/mcq/quiz", "", ""⟩).2.2 "/x").2.1⟩

end ProxyServer
